import Mathlib

/-!
Verification of the satellite-data API module (`backend/satellite_apis.py`).

The module exposes six HTTP endpoints that orchestrate queries against an
external geospatial service (Google Earth Engine).  We embed, as executable
Lean definitions translated from the Python source:

* the calendar arithmetic of `datetime` + `relativedelta(months=k)`;
* the `create_grid_tiles` tiling loop;
* the image-mosaic assembly of `process_month` (mosaic, clip, zero-mask);
* the six request handlers as pure functions of a request value, a
  deterministic stub of the external service, and a scheduling parameter
  abstracting the `ThreadPoolExecutor`'s completion order.

Machine reals (Python floats) are idealised as `ℚ`; JSON values are a small
inductive `JVal`; the external service is a structure of stub functions, so
that "remote query" events can be counted.
-/

/-! ## Calendar model: `datetime` dates and `relativedelta(months=k)` -/

/-- A calendar date, as in Python `datetime` (time-of-day is irrelevant to the
module: only dates are formatted into the queries). -/
structure Date where
  year : ℤ
  month : ℕ
  day : ℕ
deriving DecidableEq

/-- Gregorian leap-year rule (as in Python `calendar.isleap`). -/
def isLeap (y : ℤ) : Bool :=
  (y % 4 == 0 && y % 100 != 0) || (y % 400 == 0)

/-- Number of days of month `m` of year `y`. -/
def daysInMonth (y : ℤ) (m : ℕ) : ℕ :=
  if m = 2 then (if isLeap y then 29 else 28)
  else if m = 4 ∨ m = 6 ∨ m = 9 ∨ m = 11 then 30
  else 31

/-- Months elapsed since month 1 of year 0; the quantity on which
`relativedelta(months=k)` acts linearly before re-normalising. -/
def monthsTotal (d : Date) : ℤ :=
  d.year * 12 + ((d.month : ℤ) - 1)

/-- `d + relativedelta(months=k)`: shift the (year, month) pair by `k` months
and clamp the day to the length of the target month, exactly as
`dateutil.relativedelta` does. -/
def addMonths (d : Date) (k : ℤ) : Date :=
  let t : ℤ := monthsTotal d + k
  let y : ℤ := t / 12
  let m : ℕ := (t % 12).toNat + 1
  { year := y, month := m, day := min d.day (daysInMonth y m) }

/-- Strict chronological order on dates (year, then month, then day). -/
def dateLt (d e : Date) : Prop :=
  d.year < e.year ∨
    (d.year = e.year ∧ (d.month < e.month ∨ (d.month = e.month ∧ d.day < e.day)))

/-- Non-strict chronological order on dates. -/
def dateLe (d e : Date) : Prop := dateLt d e ∨ d = e

instance (d e : Date) : Decidable (dateLt d e) :=
  inferInstanceAs (Decidable (_ ∨ _))

instance (d e : Date) : Decidable (dateLe d e) :=
  inferInstanceAs (Decidable (_ ∨ _))

/-- Start of month window `i` in the handlers:
`start_date = now - relativedelta(months=12)`;
`month_start = start_date + relativedelta(months=month_index)`. -/
def monthStartD (now : Date) (i : ℕ) : Date :=
  addMonths (addMonths now (-12)) (i : ℤ)

/-- End of month window `i`: `month_end = month_start + relativedelta(months=1)`. -/
def monthEndD (now : Date) (i : ℕ) : Date :=
  addMonths (monthStartD now i) 1

/-- The 12 monthly task intervals generated by every 12-month endpoint. -/
def monthTasks (now : Date) : List (Date × Date) :=
  (List.range 12).map (fun i => (monthStartD now i, monthEndD now i))

/-! ### Calendar lemmas -/

theorem daysInMonth_ge (y : ℤ) (m : ℕ) : 28 ≤ daysInMonth y m := by
  unfold daysInMonth
  split_ifs <;> omega

theorem daysInMonth_le (y : ℤ) (m : ℕ) : daysInMonth y m ≤ 31 := by
  unfold daysInMonth
  split_ifs <;> omega

theorem dateExt (a b : Date) (h1 : a.year = b.year) (h2 : a.month = b.month)
    (h3 : a.day = b.day) : a = b := by
  cases a; cases b; simp_all

theorem addMonths_year (d : Date) (k : ℤ) :
    (addMonths d k).year = (monthsTotal d + k) / 12 := rfl

theorem addMonths_month (d : Date) (k : ℤ) :
    (addMonths d k).month = ((monthsTotal d + k) % 12).toNat + 1 := rfl

theorem addMonths_day_eq (d : Date) (k : ℤ) :
    (addMonths d k).day =
      min d.day (daysInMonth ((monthsTotal d + k) / 12)
        (((monthsTotal d + k) % 12).toNat + 1)) := rfl

theorem monthsTotal_addMonths (d : Date) (k : ℤ) :
    monthsTotal (addMonths d k) = monthsTotal d + k := by
  have h1 := Int.ediv_add_emod (monthsTotal d + k) 12
  have h2 := Int.emod_nonneg (monthsTotal d + k) (by norm_num : (12:ℤ) ≠ 0)
  simp only [monthsTotal, addMonths] at *
  omega

theorem addMonths_day_le (d : Date) (k : ℤ) : (addMonths d k).day ≤ d.day := by
  rw [addMonths_day_eq]; exact min_le_left _ _

theorem addMonths_day_of_le (d : Date) (k : ℤ) (h : d.day ≤ 28) :
    (addMonths d k).day = d.day := by
  rw [addMonths_day_eq]
  exact min_eq_left (h.trans (daysInMonth_ge _ _))

theorem addMonths_addMonths (d : Date) (h : d.day ≤ 28) (i k : ℤ) :
    addMonths (addMonths d i) k = addMonths d (i + k) := by
  have harg : monthsTotal d + i + k = monthsTotal d + (i + k) := by ring
  apply dateExt
  · rw [addMonths_year, monthsTotal_addMonths, harg, addMonths_year]
  · rw [addMonths_month, monthsTotal_addMonths, harg, addMonths_month]
  · rw [addMonths_day_eq (addMonths d i) k, addMonths_day_of_le d i h,
        monthsTotal_addMonths, harg, addMonths_day_eq d (i + k)]

/-- Positional index of a date used to compare dates arithmetically; for dates
with `month ∈ [1,12]` and `day ∈ [1,31]` it orders exactly like `dateLt`. -/
def dateOrd (d : Date) : ℤ :=
  monthsTotal d * 31 + ((d.day : ℤ) - 1)

/-- Field bounds satisfied by every real date (and every `addMonths` result). -/
def dateValid31 (d : Date) : Prop :=
  1 ≤ d.month ∧ d.month ≤ 12 ∧ 1 ≤ d.day ∧ d.day ≤ 31

theorem addMonths_valid31 (d : Date) (k : ℤ) (h : 1 ≤ d.day) :
    dateValid31 (addMonths d k) := by
  have h28 := daysInMonth_ge ((monthsTotal d + k) / 12)
    (((monthsTotal d + k) % 12).toNat + 1)
  have h31 := daysInMonth_le ((monthsTotal d + k) / 12)
    (((monthsTotal d + k) % 12).toNat + 1)
  have h2 := Int.emod_nonneg (monthsTotal d + k) (by norm_num : (12:ℤ) ≠ 0)
  have h3 : (monthsTotal d + k) % 12 < 12 := Int.emod_lt_of_pos _ (by norm_num)
  refine ⟨?_, ?_, ?_, ?_⟩ <;>
    simp only [addMonths_month, addMonths_day_eq] <;> omega

theorem dateLt_iff_ord (d e : Date) (hd : dateValid31 d) (he : dateValid31 e) :
    dateLt d e ↔ dateOrd d < dateOrd e := by
  obtain ⟨dy, dm, dd⟩ := d
  obtain ⟨ey, em, ed⟩ := e
  obtain ⟨h1, h2, h3, h4⟩ := hd
  obtain ⟨h5, h6, h7, h8⟩ := he
  simp only [dateLt, dateOrd, monthsTotal] at *
  omega

theorem dateOrd_addMonths (d : Date) (h : d.day ≤ 28) (k : ℤ) :
    dateOrd (addMonths d k) = dateOrd d + 31 * k := by
  simp only [dateOrd, addMonths_day_of_le d k h, monthsTotal_addMonths]
  ring

/-! ## Grid builder: `create_grid_tiles`

The Python source walks `lon` from `min_lon` in steps of `tile_size` while
`lon < max_lon`, and for each `lon` walks `lat` likewise, emitting a 5-point
rectangle polygon per cell.  Python floats are idealised as `ℚ`. -/

/-- One grid cell: the rectangle `[lon, lon+lonStep] × [lat, lat+latStep]`
(the polygon `[[lon,lat],[lon,lat+lat_step],[lon+lon_step,lat+lat_step],
[lon+lon_step,lat],[lon,lat]]` of the source). -/
structure Tile where
  lon : ℚ
  lat : ℚ
  lonStep : ℚ
  latStep : ℚ
deriving DecidableEq

/-- The sequence of loop-variable values of one `while v < hi: ...; v += step`
loop of `create_grid_tiles`, starting at `lo`. -/
def loopStarts (lo hi step : ℚ) : List ℚ :=
  if h : 0 < step ∧ lo < hi then
    lo :: loopStarts (lo + step) hi step
  else
    []
termination_by (⌈(hi - lo) / step⌉).toNat
decreasing_by
  obtain ⟨hs, hlt⟩ := h
  have h1 : (hi - (lo + step)) / step = (hi - lo) / step - 1 := by
    field_simp
    ring
  have h2 : (0:ℤ) < ⌈(hi - lo) / step⌉ :=
    Int.ceil_pos.mpr (div_pos (by linarith) hs)
  rw [h1, Int.ceil_sub_one]
  omega

/-- `create_grid_tiles(min_lon, max_lon, min_lat, max_lat, tile_size)`:
outer loop over longitudes, inner loop over latitudes, appending one tile per
iteration (`lon_step = lat_step = tile_size`). -/
def create_grid_tiles (min_lon max_lon min_lat max_lat tile_size : ℚ) : List Tile :=
  (loopStarts min_lon max_lon tile_size).flatMap (fun lon =>
    (loopStarts min_lat max_lat tile_size).map (fun lat =>
      { lon := lon, lat := lat, lonStep := tile_size, latStep := tile_size }))

theorem loopStarts_cons (lo hi step : ℚ) (hs : 0 < step) (hlt : lo < hi) :
    loopStarts lo hi step = lo :: loopStarts (lo + step) hi step := by
  rw [loopStarts]
  exact dif_pos ⟨hs, hlt⟩

/-- Every coordinate of `[lo, hi]` is covered by a loop start's step interval
(the final tile of a row extends past `hi`, so the closed end is covered). -/
theorem loopStarts_cover (lo hi step : ℚ) : ∀ x : ℚ, 0 < step → lo ≤ x → x ≤ hi →
    lo < hi → ∃ s ∈ loopStarts lo hi step, s ≤ x ∧ x ≤ s + step := by
  induction lo, hi, step using loopStarts.induct with
  | case1 lo hi step h ih =>
    intro x hs hlox hxhi hlh
    rw [loopStarts_cons lo hi step h.1 h.2]
    by_cases hx : x ≤ lo + step
    · exact ⟨lo, List.mem_cons_self _ _, hlox, hx⟩
    · push_neg at hx
      have hnext : lo + step < hi := lt_of_lt_of_le hx hxhi
      obtain ⟨s, hmem, hs1, hs2⟩ := ih x hs hx.le hxhi hnext
      exact ⟨s, List.mem_cons_of_mem _ hmem, hs1, hs2⟩
  | case2 lo hi step h =>
    intro x hs hlox hxhi hlh
    exact absurd ⟨hs, hlh⟩ h

theorem mem_loopStarts_start (lo hi step s : ℚ) (h : s ∈ loopStarts lo hi step) :
    lo ≤ s := by
  induction lo, hi, step using loopStarts.induct with
  | case1 lo hi step hc ih =>
    rw [loopStarts_cons lo hi step hc.1 hc.2] at h
    rcases List.mem_cons.mp h with rfl | h2
    · exact le_refl _
    · exact le_of_lt (by linarith [ih h2, hc.1])
  | case2 lo hi step hc =>
    rw [loopStarts] at h
    rw [dif_neg hc] at h
    exact absurd h (List.not_mem_nil _)

/-- C2: for every bounding box with `min_lon < max_lon`, `min_lat < max_lat`
and every positive `tile_size`, the tiles of `create_grid_tiles` cover every
point of the closed box with no gaps, and every tile uses the step
`tile_size` on both the longitude and latitude axes. -/
theorem grid_tiles_cover_box (min_lon max_lon min_lat max_lat tile_size x y : ℚ)
    (hlon : min_lon < max_lon) (hlat : min_lat < max_lat) (hstep : 0 < tile_size)
    (hx1 : min_lon ≤ x) (hx2 : x ≤ max_lon) (hy1 : min_lat ≤ y) (hy2 : y ≤ max_lat) :
    (∃ t ∈ create_grid_tiles min_lon max_lon min_lat max_lat tile_size,
        t.lon ≤ x ∧ x ≤ t.lon + t.lonStep ∧ t.lat ≤ y ∧ y ≤ t.lat + t.latStep) ∧
    (∀ t ∈ create_grid_tiles min_lon max_lon min_lat max_lat tile_size,
        t.lonStep = tile_size ∧ t.latStep = tile_size) := by
  constructor
  · obtain ⟨s, hsmem, hs1, hs2⟩ :=
      loopStarts_cover min_lon max_lon tile_size x hstep hx1 hx2 hlon
    obtain ⟨u, humem, hu1, hu2⟩ :=
      loopStarts_cover min_lat max_lat tile_size y hstep hy1 hy2 hlat
    refine ⟨{ lon := s, lat := u, lonStep := tile_size, latStep := tile_size }, ?_,
      hs1, hs2, hu1, hu2⟩
    rw [create_grid_tiles]
    exact List.mem_flatMap.mpr ⟨s, hsmem, List.mem_map.mpr ⟨u, humem, rfl⟩⟩
  · intro t ht
    rw [create_grid_tiles] at ht
    obtain ⟨s, _, hmap⟩ := List.mem_flatMap.mp ht
    obtain ⟨u, _, rfl⟩ := List.mem_map.mp hmap
    exact ⟨rfl, rfl⟩

/-- Witness for C2 at a concrete box and point. -/
theorem grid_tiles_cover_box_witness :
    (∃ t ∈ create_grid_tiles 0 7 0 7 5,
        t.lon ≤ 6 ∧ (6:ℚ) ≤ t.lon + t.lonStep ∧ t.lat ≤ 3 ∧ (3:ℚ) ≤ t.lat + t.latStep) ∧
    (∀ t ∈ create_grid_tiles 0 7 0 7 5,
        t.lonStep = 5 ∧ t.latStep = 5) :=
  grid_tiles_cover_box 0 7 0 7 5 6 3 (by norm_num) (by norm_num) (by norm_num)
    (by norm_num) (by norm_num) (by norm_num) (by norm_num)

/-! ## Image model

An Earth-Engine image handle is modelled as a partial pixel map: `none` is a
masked pixel.  The operations used by `process_month` — `ee.Image.constant`,
`.clip`, `ImageCollection.mosaic` (last image on top), `.updateMask` combined
with `.neq(0)` — are given their documented semantics. -/

/-- A pixel position (longitude, latitude). -/
abbrev Pixel := ℚ × ℚ

/-- An image: pixel → optional band value (`none` = masked). -/
abbrev Image := Pixel → Option ℚ

/-- `ee.Image.constant(v)`. -/
def constantImage (v : ℚ) : Image := fun _ => some v

/-- `.clip(region)`: pixels outside the region become masked. -/
def clipImage (img : Image) (region : Pixel → Bool) : Image :=
  fun p => if region p then img p else none

/-- `ImageCollection.fromImages(l).mosaic()`: at each pixel, the value of the
last image of the list that is unmasked there. -/
def mosaicImages (imgs : List Image) : Image :=
  fun p => (imgs.filterMap (fun img => img p)).getLast?

/-- `.updateMask(m)`: keep a pixel only where the mask is on. -/
def updateMask (img : Image) (m : Pixel → Bool) : Image :=
  fun p => if m p then img p else none

/-- The Boolean mask `img.neq(0)` at a pixel (masked pixels are off). -/
def neqZero : Option ℚ → Bool
  | some v => decide (v ≠ 0)
  | none => false

/-- Lines 122–129 of the source: mosaic the per-tile images, clip to the AOI,
then mask out every zero-valued pixel
(`merged.updateMask(merged.neq(0))`). -/
def merge_tiles (tile_images : List Image) (region : Pixel → Bool) : Image :=
  let merged := clipImage (mosaicImages tile_images) region
  updateMask merged (fun p => neqZero (merged p))

/-- The closed rectangle `[lo1, hi1] × [lo2, hi2]` as a region. -/
def rectRegion (lo1 hi1 lo2 hi2 : ℚ) : Pixel → Bool :=
  fun p => decide (lo1 ≤ p.1) && decide (p.1 ≤ hi1) &&
    decide (lo2 ≤ p.2) && decide (p.2 ≤ hi2)

/-- The rectangle of a grid tile. -/
def tileRegion (t : Tile) : Pixel → Bool :=
  rectRegion t.lon (t.lon + t.lonStep) t.lat (t.lat + t.latStep)

/-- The polygon ring of a grid tile, as built by `create_grid_tiles`. -/
def tileRings (t : Tile) : List (List (ℚ × ℚ)) :=
  [[(t.lon, t.lat), (t.lon, t.lat + t.latStep),
    (t.lon + t.lonStep, t.lat + t.latStep), (t.lon + t.lonStep, t.lat),
    (t.lon, t.lat)]]

/-- C8: in the merged month image, (a) every pixel at which the clipped mosaic
carries the placeholder value `0` is masked out, and (b) every surviving pixel
value is non-zero and comes from one of the per-tile images. -/
theorem mosaic_masks_zero_pixels (tile_images : List Image)
    (region : Pixel → Bool) (p : Pixel) :
    (clipImage (mosaicImages tile_images) region p = some 0 →
      merge_tiles tile_images region p = none) ∧
    (∀ v : ℚ, merge_tiles tile_images region p = some v →
      v ≠ 0 ∧ ∃ img ∈ tile_images, img p = some v) := by
  constructor
  · intro h0
    simp only [merge_tiles, updateMask, h0, neqZero]
    simp
  · intro v hv
    simp only [merge_tiles, updateMask] at hv
    by_cases hm : neqZero (clipImage (mosaicImages tile_images) region p) = true
    · rw [if_pos hm] at hv
      have hvne : v ≠ 0 := by
        rw [hv] at hm
        simpa [neqZero] using hm
      refine ⟨hvne, ?_⟩
      have hclip : mosaicImages tile_images p = some v := by
        simp only [clipImage] at hv
        by_cases hr : region p = true
        · rwa [if_pos hr] at hv
        · rw [if_neg hr] at hv; exact absurd hv (by simp)
      have hmem : v ∈ tile_images.filterMap (fun img => img p) :=
        List.mem_of_getLast?_eq_some hclip
      obtain ⟨img, himg, hval⟩ := List.mem_filterMap.mp hmem
      exact ⟨img, himg, hval⟩
    · rw [if_neg hm] at hv
      exact absurd hv (by simp)

/-- Witness for C8: a single constant-zero tile is fully masked away. -/
theorem mosaic_masks_zero_pixels_witness :
    clipImage (mosaicImages [constantImage 0]) (fun _ => true) (0, 0) = some 0 ∧
    merge_tiles [constantImage 0] (fun _ => true) (0, 0) = none := by
  refine ⟨rfl, ?_⟩
  exact (mosaic_masks_zero_pixels [constantImage 0] (fun _ => true) (0, 0)).1 rfl

/-! ## C3: the 12 monthly task intervals -/

/-- C3 counterexample: for the anchor date 2024-01-31 the generated intervals
are not consecutive.  `relativedelta` clamps the day: month 1 is
[2023-02-28, 2023-03-28) while month 2 starts at 2023-03-31, leaving a gap. -/
theorem monthly_tasks_not_consecutive_cex :
    monthEndD ⟨2024, 1, 31⟩ 1 ≠ monthStartD ⟨2024, 1, 31⟩ 2 ∧
    monthEndD ⟨2024, 1, 31⟩ 1 = ⟨2023, 3, 28⟩ ∧
    monthStartD ⟨2024, 1, 31⟩ 2 = ⟨2023, 3, 31⟩ := by
  refine ⟨?_, ?_, ?_⟩ <;> decide

/-- C3 (amended): for every anchor date whose day-of-month is at most 28 (so
that `relativedelta` never clamps), the monthly task generator produces
exactly 12 non-overlapping, consecutive calendar-month intervals in ascending
order.  (For larger anchor days, day clamping can leave gaps between
consecutive intervals — see the counterexample.) -/
theorem monthly_tasks_consecutive_of_day_le_28 (now : Date)
    (h1 : 1 ≤ now.day) (h2 : now.day ≤ 28) :
    (monthTasks now).length = 12 ∧
    (∀ i, i < 12 → (monthTasks now)[i]? = some (monthStartD now i, monthEndD now i)) ∧
    (∀ i, dateLt (monthStartD now i) (monthEndD now i)) ∧
    (∀ i, monthEndD now i = monthStartD now (i + 1)) ∧
    (∀ i j, i < j → dateLt (monthStartD now i) (monthStartD now j)) ∧
    (∀ i j, i < j → dateLe (monthEndD now i) (monthStartD now j)) := by
  have hsday : (addMonths now (-12)).day ≤ 28 := (addMonths_day_le now (-12)).trans h2
  have hsday1 : 1 ≤ (addMonths now (-12)).day := by
    rw [addMonths_day_eq]
    have := daysInMonth_ge ((monthsTotal now + -12) / 12)
      (((monthsTotal now + -12) % 12).toNat + 1)
    omega
  have hstartday : ∀ i : ℕ, (monthStartD now i).day = (addMonths now (-12)).day :=
    fun i => addMonths_day_of_le _ _ hsday
  have hvalid : ∀ i : ℕ, dateValid31 (monthStartD now i) :=
    fun i => addMonths_valid31 _ _ hsday1
  have hvalidE : ∀ i : ℕ, dateValid31 (monthEndD now i) := by
    intro i
    exact addMonths_valid31 _ _ (by rw [hstartday i] at *; exact hsday1)
  have hordS : ∀ i : ℕ, dateOrd (monthStartD now i) = dateOrd (addMonths now (-12)) + 31 * i :=
    fun i => dateOrd_addMonths _ hsday _
  have hordE : ∀ i : ℕ, dateOrd (monthEndD now i) = dateOrd (monthStartD now i) + 31 := by
    intro i
    have := dateOrd_addMonths (monthStartD now i) (by rw [hstartday i]; exact hsday) 1
    simpa using this
  have hcons : ∀ i : ℕ, monthEndD now i = monthStartD now (i + 1) := by
    intro i
    unfold monthEndD monthStartD
    rw [addMonths_addMonths (addMonths now (-12)) hsday (i : ℤ) 1]
    push_cast
    rfl
  have hasc : ∀ i j : ℕ, i < j → dateLt (monthStartD now i) (monthStartD now j) := by
    intro i j hij
    rw [dateLt_iff_ord _ _ (hvalid i) (hvalid j), hordS i, hordS j]
    have : (i : ℤ) < (j : ℤ) := by exact_mod_cast hij
    linarith
  refine ⟨by simp [monthTasks], ?_, ?_, hcons, hasc, ?_⟩
  · intro i hi
    simp [monthTasks, List.getElem?_map, List.getElem?_range, hi]
  · intro i
    rw [dateLt_iff_ord _ _ (hvalid i) (hvalidE i), hordE i]
    linarith
  · intro i j hij
    rcases Nat.lt_or_ge (i + 1) j with hlt | hge
    · exact Or.inl (by rw [hcons i]; exact hasc (i + 1) j hlt)
    · have : i + 1 = j := by omega
      exact Or.inr (by rw [hcons i, this])

/-- Witness for C3 (amended) at the concrete anchor 2025-06-15. -/
theorem monthly_tasks_consecutive_witness :
    monthEndD ⟨2025, 6, 15⟩ 3 = monthStartD ⟨2025, 6, 15⟩ 4 ∧
    dateLe (monthEndD ⟨2025, 6, 15⟩ 2) (monthStartD ⟨2025, 6, 15⟩ 5) :=
  ⟨(monthly_tasks_consecutive_of_day_le_28 ⟨2025, 6, 15⟩ (by decide) (by decide)).2.2.2.1 3,
   (monthly_tasks_consecutive_of_day_le_28 ⟨2025, 6, 15⟩ (by decide) (by decide)).2.2.2.2.2 2 5
     (by decide)⟩

/-! ## JSON values and Python-level helpers

Request bodies and responses are JSON.  A missing key of `request.data` is
Python `None`, modelled as `JVal.null`. -/

/-- A JSON value. -/
inductive JVal where
  | null : JVal
  | bool : Bool → JVal
  | num : ℚ → JVal
  | str : String → JVal
  | arr : List JVal → JVal
  | obj : List (String × JVal) → JVal

/-- Python `x is None`. -/
def JVal.isNull : JVal → Bool
  | .null => true
  | _ => false

/-- Python truthiness (`if not x`): `None`, `False`, `0`, empty string, empty
list and empty dict are falsy. -/
def truthy : JVal → Bool
  | .null => false
  | .bool b => b
  | .num q => decide (q ≠ 0)
  | .str s => !(s == "")
  | .arr xs => !xs.isEmpty
  | .obj fs => !fs.isEmpty

/-- Dict field lookup (`d[k]` / `d.get(k)` on a parsed-JSON dict). -/
def lookupField : List (String × JVal) → String → Option JVal
  | [], _ => none
  | (k', v) :: rest, k => if k' = k then some v else lookupField rest k

/-- Lookup of key `k` in a JSON object (`none` for non-objects/missing key). -/
def getField : JVal → String → Option JVal
  | .obj fs, k => lookupField fs k
  | _, _ => none

/-- Python `k in x` for a JSON value: key of a dict, element of a list,
substring of a string; `none` models the `TypeError` raised on other types. -/
def jContains : JVal → String → Option Bool
  | .obj fs, k => some (fs.any (fun kv => kv.1 == k))
  | .arr xs, k => some (xs.any (fun v => match v with | .str t => t == k | _ => false))
  | .str s, k => some ((k == "") || decide (2 ≤ (s.splitOn k).length))
  | _, _ => none

/-- Python `len(x)` for a JSON value (`none` models the `TypeError`). -/
def pyLen : JVal → Option ℕ
  | .arr xs => some xs.length
  | .str s => some s.length
  | .obj fs => some fs.length
  | _ => none

/-- Numeric value of a list of decimal digits. -/
def digitsVal (cs : List Char) : ℕ :=
  cs.foldl (fun a c => a * 10 + (c.toNat - 48)) 0

/-- Split a character list at every occurrence of `c`. -/
def splitOnChar (c : Char) : List Char → List (List Char)
  | [] => [[]]
  | a :: rest =>
    let r := splitOnChar c rest
    if a = c then [] :: r
    else
      match r with
      | g :: gs => (a :: g) :: gs
      | [] => [[a]]

/-- Decimal-literal parsing of `float(s)` for a string: optional sign,
digits, optional fractional part.  (Exponent/inf/nan literals accepted by
Python are outside the inputs this model is used on.) -/
def parseDecimal? (cs : List Char) : Option ℚ :=
  let (sgn, rest) : ℚ × List Char :=
    match cs with
    | '-' :: r => (-1, r)
    | '+' :: r => (1, r)
    | r => (1, r)
  match splitOnChar '.' rest with
  | [ip] =>
    if ip ≠ [] ∧ ip.all Char.isDigit then some (sgn * digitsVal ip) else none
  | [ip, fp] =>
    if (ip ≠ [] ∨ fp ≠ []) ∧ ip.all Char.isDigit ∧ fp.all Char.isDigit then
      some (sgn * ((digitsVal ip : ℚ) + (digitsVal fp : ℚ) / (10 : ℚ) ^ fp.length))
    else none
  | _ => none

/-- Python `float(x)` on a JSON value: numbers and booleans convert, numeric
strings parse; everything else raises (`ValueError`/`TypeError`), i.e.
`none`. -/
def pyFloat : JVal → Option ℚ
  | .num q => some q
  | .bool b => some (if b then 1 else 0)
  | .str s => parseDecimal? s.toList
  | _ => none

/-- `datetime.strptime(s, "%Y-%m")`: exactly 4 year digits, a dash, then a
1–2 digit month in 1..12; day defaults to 1. -/
def parseMonth? (s : String) : Option Date :=
  match splitOnChar '-' s.toList with
  | [ycs, mcs] =>
    if ycs.length = 4 ∧ ycs.all Char.isDigit ∧
        1 ≤ mcs.length ∧ mcs.length ≤ 2 ∧ mcs.all Char.isDigit then
      let m := digitsVal mcs
      if 1 ≤ m ∧ m ≤ 12 then some ⟨(digitsVal ycs : ℤ), m, 1⟩ else none
    else none
  | _ => none

/-- `strptime` applied to the raw `month` request value: a non-string raises
`TypeError`, caught by the same handler branch as `ValueError`. -/
def parseMonthJ : JVal → Option Date
  | .str s => parseMonth? s
  | _ => none

/-- Python `round(q, n)` (to `n` decimal places; the half-to-even detail of
floats is immaterial to the claims and modelled as ordinary rounding). -/
def roundTo (q : ℚ) (n : ℕ) : ℚ :=
  (round (q * (10 : ℚ) ^ n) : ℤ) / (10 : ℚ) ^ n

/-- Encode an optional number the way the handlers do:
`v if v is not None else None`. -/
def optNum : Option ℚ → JVal
  | some v => .num v
  | none => .null

/-- Two-digit zero-padded rendering of a month/day number. -/
def pad2 (n : ℕ) : String :=
  if n < 10 then "0" ++ toString n else toString n

/-- `strftime("%Y-%m")`. -/
def formatYM (d : Date) : String :=
  toString d.year ++ "-" ++ pad2 d.month

/-- `strftime("%Y-%m-%d")`. -/
def formatYMD (d : Date) : String :=
  formatYM d ++ "-" ++ pad2 d.day

/-- English month name (`strftime("%B")`). -/
def monthName : ℕ → String
  | 1 => "January" | 2 => "February" | 3 => "March" | 4 => "April"
  | 5 => "May" | 6 => "June" | 7 => "July" | 8 => "August"
  | 9 => "September" | 10 => "October" | 11 => "November" | 12 => "December"
  | _ => "Unknown"

/-- `strftime("%B %Y")`. -/
def formatMonthYear (d : Date) : String :=
  monthName d.month ++ " " ++ toString d.year

/-! ## Earth-Engine query descriptors and the service stub

Each remote query built by the handlers is summarised by a descriptor
recording the collection, geometry, date window, the
`ee.Filter.lt("CLOUDY_PIXEL_PERCENTAGE", …)` threshold (if any), whether the
SCL cloud mask is mapped over the collection, the selected band, and the
`.multiply(a).subtract(b)` post-scaling (if any).  The external service is a
structure of deterministic stub functions over descriptors. -/

/-- Geometry argument of a query. -/
inductive EEGeometry where
  | polygon : List (List (ℚ × ℚ)) → EEGeometry
  | point : ℚ → ℚ → EEGeometry
deriving DecidableEq

/-- Descriptor of one filtered-and-mapped `ee.ImageCollection` expression. -/
structure EEQuery where
  collection : String
  geometry : EEGeometry
  dateStart : String
  dateEnd : String
  cloudFilterLt : Option ℚ
  sclMask : Bool
  band : String
  postScale : Option (ℚ × ℚ)
deriving DecidableEq

/-- Per-AOI statistics returned by
`reduceRegion(mean.combine(minMax)).getInfo()`; `none` entries model the
`null` the service returns when no unmasked pixel exists. -/
structure AOIStats where
  mean : Option ℚ
  min : Option ℚ
  max : Option ℚ
deriving DecidableEq

/-- Deterministic stub of the external geospatial service. -/
structure EEStub where
  tileImage : EEQuery → Option Image
  wholeImage : EEQuery → Image
  mapTileUrl : Image → String
  collectionSize : EEQuery → ℕ
  reduceStats : EEQuery → AOIStats
  samplePoint : EEQuery → Option ℚ
  regionRows : EEQuery → List (Option ℚ)

/-- An HTTP response together with the number of remote service calls the
handler performed while producing it. -/
structure HttpResponse where
  status : ℕ
  body : JVal
  remoteCalls : ℕ

/-- The 400 responses of the handlers:
`Response({"success": False, "error": msg}, status=400)`, issued before any
remote call. -/
def err400 (msg : String) : HttpResponse :=
  { status := 400
    body := .obj [("success", .bool false), ("error", .str msg)]
    remoteCalls := 0 }

/-- The 500 response of the enclosing `except Exception` handler, for
exceptions raised before any remote call was made (the only way the model
reaches it). -/
def err500 : HttpResponse :=
  { status := 500
    body := .obj [("success", .bool false), ("error", .str "exception")]
    remoteCalls := 0 }

/-- JSON rendering of a list of polygon rings (the `aoi_bounds` field). -/
def ringsToJ (rings : List (List (ℚ × ℚ))) : JVal :=
  .arr (rings.map (fun ring => .arr (ring.map (fun pq => .arr [.num pq.1, .num pq.2]))))

/-! ## The bounded fan-out executor

`ThreadPoolExecutor(max_workers=w)` receives the 12 `process_month` tasks
(`executor.submit` in index order) and the handler collects
`future.result()` in the same submission order, whatever order the pool
completes them in; completion order is abstracted as a schedule list.  If the
pool fails outright, the `except` branch recomputes all months sequentially
in ascending index order. -/
def runFanOut {α : Type} (maxWorkers : ℕ) (process : ℕ → α) (n : ℕ)
    (sched : List ℕ) (poolOk : Bool) (default : α) : List α :=
  if poolOk then
    (List.range n).map (fun i =>
      (((sched.map (fun j => (j, process j))).lookup i).getD default))
  else
    (List.range n).map process

/-- `max_workers=3` of `AmazonNDVIAPI.get` (line 165). -/
def amazonNDVI_max_workers : ℕ := 3

/-- `max_workers=3` of `AmazonLSTAPI.get` (line 335). -/
def amazonLST_max_workers : ℕ := 3

/-- `max_workers=4` of `CustomNDVIAPI.post` (line 454). -/
def customNDVI_max_workers : ℕ := 4

/-- `max_workers=4` of `CustomLSTAPI.post` (line 666). -/
def customLST_max_workers : ℕ := 4

/-! ## Amazon endpoints -/

/-- The Amazon bounding polygon ring of both Amazon endpoints. -/
def amazonRings : List (List (ℚ × ℚ)) :=
  [[(-74, -18), (-74, 12), (-34, 12), (-34, -18), (-74, -18)]]

/-- The Amazon bounding box as a region. -/
def amazonRegion : Pixel → Bool := rectRegion (-74) (-34) (-18) 12

/-- `create_grid_tiles(-74.0, -34.0, -18.0, 12.0, 5.0)`. -/
def amazonGrid : List Tile := create_grid_tiles (-74) (-34) (-18) 12 5

/-- The Sentinel-2 NDVI query of `AmazonNDVIAPI.process_tile_month`:
cloud filter below 30, SCL mask, NDVI band. -/
def amazonNDVI_tile_query (t : Tile) (ms me : Date) : EEQuery :=
  { collection := "COPERNICUS/S2_SR_HARMONIZED"
    geometry := .polygon (tileRings t)
    dateStart := formatYMD ms
    dateEnd := formatYMD me
    cloudFilterLt := some 30
    sclMask := true
    band := "NDVI"
    postScale := none }

/-- The whole-region query of the fallback branch of
`AmazonNDVIAPI.process_month`. -/
def amazonNDVI_whole_query (ms me : Date) : EEQuery :=
  { collection := "COPERNICUS/S2_SR_HARMONIZED"
    geometry := .polygon amazonRings
    dateStart := formatYMD ms
    dateEnd := formatYMD me
    cloudFilterLt := some 30
    sclMask := true
    band := "NDVI"
    postScale := none }

/-- The MODIS LST query of `AmazonLSTAPI.process_tile_month`: no cloud
filter, `LST_Day_1km` band, `.multiply(0.02).subtract(273.15)`. -/
def amazonLST_tile_query (t : Tile) (ms me : Date) : EEQuery :=
  { collection := "MODIS/061/MOD11A2"
    geometry := .polygon (tileRings t)
    dateStart := formatYMD ms
    dateEnd := formatYMD me
    cloudFilterLt := none
    sclMask := false
    band := "LST_Day_1km"
    postScale := some (2 / 100, 27315 / 100) }

/-- The whole-region query of the fallback branch of
`AmazonLSTAPI.process_month`. -/
def amazonLST_whole_query (ms me : Date) : EEQuery :=
  { collection := "MODIS/061/MOD11A2"
    geometry := .polygon amazonRings
    dateStart := formatYMD ms
    dateEnd := formatYMD me
    cloudFilterLt := none
    sclMask := false
    band := "LST_Day_1km"
    postScale := some (2 / 100, 27315 / 100) }

/-- Tile loop and mosaic of `AmazonNDVIAPI.process_month` (lines 107–141).
A failed tile fetch — either inside `process_tile_month` or in the loop —
contributes the blank image `ee.Image.constant(0).rename('NDVI').clip(tile)`;
a successful one contributes the fetched median image clipped to the tile.
The list is mosaicked, clipped to the AOI and zero-masked if non-empty,
otherwise the whole-region fallback query runs.  The Boolean records whether
the fallback branch was taken. -/
def amazonNDVI_assemble (stub : EEStub) (ms me : Date) : Image × Bool :=
  let tile_images := amazonGrid.map (fun t =>
    match stub.tileImage (amazonNDVI_tile_query t ms me) with
    | some img => clipImage img (tileRegion t)
    | none => clipImage (constantImage 0) (tileRegion t))
  if tile_images.isEmpty then
    (clipImage (stub.wholeImage (amazonNDVI_whole_query ms me)) amazonRegion, true)
  else
    (merge_tiles tile_images amazonRegion, false)

/-- Tile loop and mosaic of `AmazonLSTAPI.process_month` (lines 273–309),
same shape as the NDVI one. -/
def amazonLST_assemble (stub : EEStub) (ms me : Date) : Image × Bool :=
  let tile_images := amazonGrid.map (fun t =>
    match stub.tileImage (amazonLST_tile_query t ms me) with
    | some img => clipImage img (tileRegion t)
    | none => clipImage (constantImage 0) (tileRegion t))
  if tile_images.isEmpty then
    (clipImage (stub.wholeImage (amazonLST_whole_query ms me)) amazonRegion, true)
  else
    (merge_tiles tile_images amazonRegion, false)

/-- `vis_params` of the Amazon NDVI endpoint. -/
def ndviVisParams : JVal :=
  .obj [("min", .num 0), ("max", .num 1),
        ("palette", .arr [.str "#ff0000", .str "#ffff00", .str "#00ff00"])]

/-- `legend` of the Amazon NDVI endpoint. -/
def ndviLegend : JVal :=
  .obj [("title", .str "NDVI Values"), ("min", .num 0), ("max", .num 1),
        ("colors", .arr [.str "#ff0000", .str "#ffff00", .str "#00ff00"]),
        ("labels", .arr [.str "Low Vegetation", .str "Moderate Vegetation",
          .str "High Vegetation"])]

/-- One month's entry of `AmazonNDVIAPI.process_month`. -/
def amazonNDVI_process_month (stub : EEStub) (start : Date) (i : ℕ) : JVal :=
  let ms := addMonths start (i : ℤ)
  let me := addMonths ms 1
  let assembled := amazonNDVI_assemble stub ms me
  .obj [("month", .str (formatYM ms)),
        ("month_name", .str (formatMonthYear ms)),
        ("tile_url", .str (stub.mapTileUrl assembled.1)),
        ("vis_params", ndviVisParams),
        ("data_type", .str "NDVI"),
        ("tiles_processed", .num (amazonGrid.length : ℚ)),
        ("grid_coverage", .str "complete")]

/-- `AmazonNDVIAPI.get`: fan the 12 months out over the pool and build the
response envelope (the one remote call of each month is `getMapId`). -/
def amazonNDVI_get (stub : EEStub) (now : Date) (sched : List ℕ)
    (poolOk : Bool) : HttpResponse :=
  let start := addMonths now (-12)
  let monthly := runFanOut amazonNDVI_max_workers
    (amazonNDVI_process_month stub start) 12 sched poolOk .null
  { status := 200
    body := .obj [("success", .bool true),
      ("region", .str "Amazon Rainforest"),
      ("data_type", .str "NDVI"),
      ("time_period", .str (formatYM start ++ " to " ++ formatYM now)),
      ("total_layers", .num 12),
      ("monthly_layers", .arr monthly),
      ("legend", ndviLegend),
      ("aoi_bounds", ringsToJ amazonRings),
      ("processing_info", .obj [("grid_tiles", .num (amazonGrid.length : ℚ)),
        ("tile_size_degrees", .num 5),
        ("coverage_method", .str "grid-based_tiling")])]
    remoteCalls := 12 }

/-- `vis_params` of the Amazon LST endpoint. -/
def lstVisParams : JVal :=
  .obj [("min", .num 20), ("max", .num 40),
        ("palette", .arr [.str "#313695", .str "#4575b4", .str "#74add1",
          .str "#abd9e9", .str "#e0f3f8", .str "#fee090", .str "#fdae61",
          .str "#f46d43", .str "#d73027", .str "#a50026"])]

/-- `legend` of the Amazon LST endpoint. -/
def lstLegend : JVal :=
  .obj [("title", .str "Land Surface Temperature (°C)"), ("min", .num 20),
        ("max", .num 40),
        ("colors", .arr [.str "#313695", .str "#4575b4", .str "#74add1",
          .str "#abd9e9", .str "#e0f3f8", .str "#fee090", .str "#fdae61",
          .str "#f46d43", .str "#d73027", .str "#a50026"]),
        ("labels", .arr [.str "Cool (20°C)", .str "Moderate (25°C)",
          .str "Warm (30°C)", .str "Hot (35°C)", .str "Very Hot (40°C)"])]

/-- One month's entry of `AmazonLSTAPI.process_month`. -/
def amazonLST_process_month (stub : EEStub) (start : Date) (i : ℕ) : JVal :=
  let ms := addMonths start (i : ℤ)
  let me := addMonths ms 1
  let assembled := amazonLST_assemble stub ms me
  .obj [("month", .str (formatYM ms)),
        ("month_name", .str (formatMonthYear ms)),
        ("tile_url", .str (stub.mapTileUrl assembled.1)),
        ("vis_params", lstVisParams),
        ("data_type", .str "LST"),
        ("unit", .str "Celsius"),
        ("tiles_processed", .num (amazonGrid.length : ℚ)),
        ("grid_coverage", .str "complete")]

/-- `AmazonLSTAPI.get`. -/
def amazonLST_get (stub : EEStub) (now : Date) (sched : List ℕ)
    (poolOk : Bool) : HttpResponse :=
  let start := addMonths now (-12)
  let monthly := runFanOut amazonLST_max_workers
    (amazonLST_process_month stub start) 12 sched poolOk .null
  { status := 200
    body := .obj [("success", .bool true),
      ("region", .str "Amazon Rainforest"),
      ("data_type", .str "LST (Land Surface Temperature)"),
      ("time_period", .str (formatYM start ++ " to " ++ formatYM now)),
      ("total_layers", .num 12),
      ("monthly_layers", .arr monthly),
      ("legend", lstLegend),
      ("aoi_bounds", ringsToJ amazonRings),
      ("processing_info", .obj [("grid_tiles", .num (amazonGrid.length : ℚ)),
        ("tile_size_degrees", .num 5),
        ("coverage_method", .str "grid-based_tiling")])]
    remoteCalls := 12 }

/-! ## Custom-AOI endpoints -/

/-- Body of a `CustomNDVIAPI`/`CustomLSTAPI` POST request:
`request.data.get("geometry")` (`null` when absent). -/
structure CustomRequest where
  geometry : JVal

/-- `ee.Geometry.Polygon(coords)` argument validation: a list of rings of
2-point-or-more numeric positions; `none` models the client-side exception
raised by the constructor on anything else. -/
def parsePolygon? : JVal → Option (List (List (ℚ × ℚ)))
  | .arr rings =>
    rings.mapM (fun ring =>
      match ring with
      | .arr pts =>
        pts.mapM (fun pt =>
          match pt with
          | .arr (.num x :: .num y :: _) => some (x, y)
          | _ => none)
      | _ => none)
  | _ => none

/-- Validation prefix shared by `CustomNDVIAPI.post` and `CustomLSTAPI.post`
(lines 385–393): truthiness of `geometry`, then
`isinstance(aoi_geojson, dict) and 'geometry' in aoi_geojson and
'coordinates' in aoi_geojson['geometry']`, then
`ee.Geometry.Polygon(aoi_geojson['geometry']['coordinates'])`.  Returns the
error response, or the raw `coordinates` value plus its parsed rings. -/
def customValidate (req : CustomRequest) :
    HttpResponse ⊕ (JVal × List (List (ℚ × ℚ))) :=
  if !(truthy req.geometry) then .inl (err400 "Missing geometry parameter")
  else
    match req.geometry with
    | .obj fs =>
      match lookupField fs "geometry" with
      | some g =>
        match jContains g "coordinates" with
        | none => .inl err500
        | some false => .inl (err400 "Invalid AOI format")
        | some true =>
          match g with
          | .obj gfs =>
            match lookupField gfs "coordinates" with
            | some coordsJ =>
              match parsePolygon? coordsJ with
              | some rings => .inr (coordsJ, rings)
              | none => .inl err500
            | none => .inl err500
          | _ => .inl err500
      | none => .inl (err400 "Invalid AOI format")
    | _ => .inl (err400 "Invalid AOI format")

/-- The Sentinel-2 query of `CustomNDVIAPI.process_month`: cloud filter below
100, SCL mask, NDVI band. -/
def customNDVI_query (rings : List (List (ℚ × ℚ))) (ms me : Date) : EEQuery :=
  { collection := "COPERNICUS/S2_SR_HARMONIZED"
    geometry := .polygon rings
    dateStart := formatYMD ms
    dateEnd := formatYMD me
    cloudFilterLt := some 100
    sclMask := true
    band := "NDVI"
    postScale := none }

/-- The MODIS query of `CustomLSTAPI.process_month`: no cloud filter,
`LST_Day_1km`, `.multiply(0.02).subtract(273.15)`. -/
def customLST_query (rings : List (List (ℚ × ℚ))) (ms me : Date) : EEQuery :=
  { collection := "MODIS/061/MOD11A2"
    geometry := .polygon rings
    dateStart := formatYMD ms
    dateEnd := formatYMD me
    cloudFilterLt := none
    sclMask := false
    band := "LST_Day_1km"
    postScale := some (2 / 100, 27315 / 100) }

/-- One month of `CustomNDVIAPI.process_month`: a `size().getInfo()` call
(assigned to the unused `image_count`), a `reduceRegion(...).getInfo()` call,
and the per-month statistics entry; `None` statistics are passed through and
`data_available` mirrors `mean is not None`.  Returns the entry and its
remote-call count. -/
def customNDVI_process_month (stub : EEStub) (rings : List (List (ℚ × ℚ)))
    (start : Date) (i : ℕ) : JVal × ℕ :=
  let ms := addMonths start (i : ℤ)
  let me := addMonths ms 1
  let q := customNDVI_query rings ms me
  let stats := stub.reduceStats q
  (.obj [("month", .str (formatYM ms)),
    ("month_name", .str (formatMonthYear ms)),
    ("data_type", .str "NDVI"),
    ("statistics", .obj [
      ("mean", optNum (stats.mean.map (fun v => roundTo v 4))),
      ("min", optNum (stats.min.map (fun v => roundTo v 4))),
      ("max", optNum (stats.max.map (fun v => roundTo v 4)))]),
    ("data_available", .bool stats.mean.isSome)], 2)

/-- One month of `CustomLSTAPI.process_month` (statistics rounded to 2 places,
extra `unit` field); the reduction runs on the Celsius-scaled image. -/
def customLST_process_month (stub : EEStub) (rings : List (List (ℚ × ℚ)))
    (start : Date) (i : ℕ) : JVal × ℕ :=
  let ms := addMonths start (i : ℤ)
  let me := addMonths ms 1
  let q := customLST_query rings ms me
  let stats := stub.reduceStats q
  (.obj [("month", .str (formatYM ms)),
    ("month_name", .str (formatMonthYear ms)),
    ("data_type", .str "LST"),
    ("unit", .str "Celsius"),
    ("statistics", .obj [
      ("mean", optNum (stats.mean.map (fun v => roundTo v 2))),
      ("min", optNum (stats.min.map (fun v => roundTo v 2))),
      ("max", optNum (stats.max.map (fun v => roundTo v 2)))]),
    ("data_available", .bool stats.mean.isSome)], 1)

/-- `CustomNDVIAPI.post`. -/
def customNDVI_post (stub : EEStub) (req : CustomRequest) (now : Date)
    (sched : List ℕ) (poolOk : Bool) : HttpResponse :=
  match customValidate req with
  | .inl resp => resp
  | .inr (coordsJ, rings) =>
    let start := addMonths now (-12)
    let results := runFanOut customNDVI_max_workers
      (customNDVI_process_month stub rings start) 12 sched poolOk (.null, 0)
    { status := 200
      body := .obj [("success", .bool true),
        ("region", .str "Custom AOI"),
        ("data_type", .str "NDVI"),
        ("time_period", .str (formatYM start ++ " to " ++ formatYM now)),
        ("total_months", .num 12),
        ("monthly_statistics", .arr (results.map Prod.fst)),
        ("aoi_bounds", coordsJ)]
      remoteCalls := (results.map Prod.snd).sum }

/-- `CustomLSTAPI.post`. -/
def customLST_post (stub : EEStub) (req : CustomRequest) (now : Date)
    (sched : List ℕ) (poolOk : Bool) : HttpResponse :=
  match customValidate req with
  | .inl resp => resp
  | .inr (coordsJ, rings) =>
    let start := addMonths now (-12)
    let results := runFanOut customLST_max_workers
      (customLST_process_month stub rings start) 12 sched poolOk (.null, 0)
    { status := 200
      body := .obj [("success", .bool true),
        ("region", .str "Custom AOI"),
        ("data_type", .str "LST (Land Surface Temperature)"),
        ("time_period", .str (formatYM start ++ " to " ++ formatYM now)),
        ("total_months", .num 12),
        ("monthly_statistics", .arr (results.map Prod.fst)),
        ("aoi_bounds", coordsJ)]
      remoteCalls := (results.map Prod.snd).sum }

/-! ## Point-monthly endpoints -/

/-- Body of a `PointNDVIMonthlyAPI`/`PointLSTMonthlyAPI` POST request
(each field is `request.data.get(...)`, `null` when absent). -/
structure PointRequest where
  latitude : JVal
  longitude : JVal
  geometry : JVal
  month : JVal

/-- Outcome of the coordinate-resolution block (lines 494–516 / 706–728). -/
inductive CoordRes where
  | resolved : JVal → JVal → CoordRes
  | clientErr : String → CoordRes
  | serverErr : CoordRes

/-- Coordinate resolution: if both `latitude` and `longitude` are not `None`
they are `float()`-converted (failure → 400); otherwise a non-`None`
`geometry` object is unpacked as a GeoJSON Point, with Python subscripting
semantics: `len()` of a non-sized value and integer subscripts of dicts
raise, reaching the outer `except` (500); `lon, lat = coords[0], coords[1]`
of a string takes its characters.  Resolved values are returned in
(longitude, latitude) order as in `ee.Geometry.Point([lon, lat])`. -/
def resolvePointCoords (req : PointRequest) : CoordRes :=
  if !req.latitude.isNull && !req.longitude.isNull then
    match pyFloat req.latitude, pyFloat req.longitude with
    | some la, some lo => .resolved (.num lo) (.num la)
    | _, _ => .clientErr "Invalid latitude or longitude format"
  else if !req.geometry.isNull then
    match req.geometry with
    | .obj fs =>
      match lookupField fs "geometry" with
      | some geomData =>
        match geomData with
        | .obj gfs =>
          if (match lookupField gfs "type" with
              | some (.str t) => t == "Point"
              | _ => false) &&
             (lookupField gfs "coordinates").isSome then
            match lookupField gfs "coordinates" with
            | some coords =>
              match coords with
              | .arr (a :: b :: _) => .resolved a b
              | .arr _ => .clientErr "Invalid coordinates format"
              | .str s =>
                if 2 ≤ s.length then
                  .resolved (.str (String.mk [s.toList.getD 0 ' ']))
                    (.str (String.mk [s.toList.getD 1 ' ']))
                else .clientErr "Invalid coordinates format"
              | .obj gfs2 =>
                if 2 ≤ gfs2.length then .serverErr
                else .clientErr "Invalid coordinates format"
              | _ => .serverErr
            | none => .serverErr
          else .clientErr "Invalid geometry format - expected Point"
        | _ => .serverErr
      | none => .clientErr "Invalid geometry object format"
    | _ => .clientErr "Invalid geometry object format"
  else .clientErr "Missing latitude/longitude or geometry parameter"

/-- The Sentinel-2 query of `PointNDVIMonthlyAPI.post`: cloud filter below
50, SCL mask, NDVI band, point geometry. -/
def pointNDVI_query (lon la : ℚ) (ms me : Date) : EEQuery :=
  { collection := "COPERNICUS/S2_SR_HARMONIZED"
    geometry := .point lon la
    dateStart := formatYMD ms
    dateEnd := formatYMD me
    cloudFilterLt := some 50
    sclMask := true
    band := "NDVI"
    postScale := none }

/-- The MODIS query of `PointLSTMonthlyAPI.post`: no cloud filter,
`LST_Day_1km`, point geometry; the sampled image carries the
`.multiply(0.02).subtract(273.15)` scaling. -/
def pointLST_query (lon la : ℚ) (ms me : Date) : EEQuery :=
  { collection := "MODIS/061/MOD11A2"
    geometry := .point lon la
    dateStart := formatYMD ms
    dateEnd := formatYMD me
    cloudFilterLt := none
    sclMask := false
    band := "LST_Day_1km"
    postScale := some (2 / 100, 27315 / 100) }

/-- `PointNDVIMonthlyAPI.post`.  After coordinate and month validation,
`ee.Geometry.Point([lon, lat])` requires numeric coordinates (non-numeric
values raise client-side → 500, before any remote call).  Remote calls:
`s2_monthly.size().getInfo()`, `sampled.size().getInfo()`, the sampled
value's `getInfo()` when a sample exists, and `getRegion(...).getInfo()`. -/
def pointNDVIMonthly_post (stub : EEStub) (req : PointRequest) : HttpResponse :=
  match resolvePointCoords req with
  | .clientErr m => err400 m
  | .serverErr => err500
  | .resolved lonJ laJ =>
    if !(truthy req.month) then err400 "Missing month parameter"
    else
      match parseMonthJ req.month with
      | none => err400 "Invalid month format (use YYYY-MM)"
      | some monthDate =>
        match lonJ, laJ with
        | .num lon, .num la =>
          let q := pointNDVI_query lon la monthDate (addMonths monthDate 1)
          let imageCount := stub.collectionSize q
          let sampleVal := stub.samplePoint q
          let rows := stub.regionRows q
          let vals := rows.filterMap (fun r => r.map (fun v => roundTo v 4))
          { status := 200
            body := .obj [("success", .bool true),
              ("location", .obj [("latitude", .num la), ("longitude", .num lon)]),
              ("month", req.month),
              ("month_name", .str (formatMonthYear monthDate)),
              ("data_type", .str "NDVI"),
              ("median_ndvi", optNum (sampleVal.map (fun v => roundTo v 4))),
              ("all_ndvi_values", .arr (vals.map JVal.num)),
              ("image_count", .num (imageCount : ℚ)),
              ("data_available", .bool sampleVal.isSome)]
            remoteCalls := 2 + (if sampleVal.isSome then 1 else 0) + 1 }
        | _, _ => err500

/-- `PointLSTMonthlyAPI.post`.  Same structure without the collection-size
call; `getRegion` rows are raw sensor values converted to Celsius in the
handler (`(row[4] * 0.02) - 273.15`), while the sampled median carries the
scaling already (it is sampled from the scaled image). -/
def pointLSTMonthly_post (stub : EEStub) (req : PointRequest) : HttpResponse :=
  match resolvePointCoords req with
  | .clientErr m => err400 m
  | .serverErr => err500
  | .resolved lonJ laJ =>
    if !(truthy req.month) then err400 "Missing month parameter"
    else
      match parseMonthJ req.month with
      | none => err400 "Invalid month format (use YYYY-MM)"
      | some monthDate =>
        match lonJ, laJ with
        | .num lon, .num la =>
          let q := pointLST_query lon la monthDate (addMonths monthDate 1)
          let sampleVal := stub.samplePoint q
          let rows := stub.regionRows q
          let vals := rows.filterMap (fun r =>
            r.map (fun v => roundTo (v * (2 / 100) - 27315 / 100) 2))
          { status := 200
            body := .obj [("success", .bool true),
              ("location", .obj [("latitude", .num la), ("longitude", .num lon)]),
              ("month", req.month),
              ("month_name", .str (formatMonthYear monthDate)),
              ("data_type", .str "LST (Land Surface Temperature)"),
              ("unit", .str "Celsius"),
              ("median_lst", optNum (sampleVal.map (fun v => roundTo v 2))),
              ("all_lst_values", .arr (vals.map JVal.num)),
              ("data_available", .bool sampleVal.isSome)]
            remoteCalls := 1 + (if sampleVal.isSome then 1 else 0) + 1 }
        | _, _ => err500

/-! ## Fan-out and grid lemmas -/

theorem lookup_map_pair {α : Type} (f : ℕ → α) (sched : List ℕ) (i : ℕ)
    (h : i ∈ sched) :
    (sched.map (fun j => (j, f j))).lookup i = some (f i) := by
  induction sched with
  | nil => cases h
  | cons a l ih =>
    simp only [List.map_cons, List.lookup]
    by_cases hia : i = a
    · subst hia; simp
    · have hba : (i == a) = false := by simp [hia]
      rw [hba]
      have hm : i ∈ l := by
        rcases List.mem_cons.mp h with rfl | hm
        · exact absurd rfl hia
        · exact hm
      exact ih hm

theorem runFanOut_eq_map {α : Type} (w : ℕ) (f : ℕ → α) (n : ℕ) (sched : List ℕ)
    (ok : Bool) (d : α) (hcov : ∀ i, i < n → i ∈ sched) :
    runFanOut w f n sched ok d = (List.range n).map f := by
  cases ok
  · rfl
  · unfold runFanOut
    simp only [if_pos]
    apply List.map_congr_left
    intro i hi
    rw [lookup_map_pair f sched i (hcov i (List.mem_range.mp hi))]
    rfl

theorem loopStarts_ne_nil (lo hi step : ℚ) (hs : 0 < step) (hlt : lo < hi) :
    loopStarts lo hi step ≠ [] := by
  rw [loopStarts_cons lo hi step hs hlt]
  exact List.cons_ne_nil _ _

theorem amazonGrid_ne_nil : amazonGrid ≠ [] := by
  simp only [amazonGrid, create_grid_tiles,
    loopStarts_cons (-74 : ℚ) (-34) 5 (by norm_num) (by norm_num),
    loopStarts_cons (-18 : ℚ) 12 5 (by norm_num) (by norm_num),
    List.flatMap_cons, List.map_cons, List.cons_append]
  exact List.cons_ne_nil _ _

theorem mosaic_all_zero (imgs : List Image)
    (h : ∀ img ∈ imgs, ∀ p v, img p = some v → v = 0) (p : Pixel) :
    mosaicImages imgs p = none ∨ mosaicImages imgs p = some 0 := by
  unfold mosaicImages
  cases hlast : (imgs.filterMap (fun img => img p)).getLast? with
  | none => exact Or.inl rfl
  | some v =>
    right
    obtain ⟨img, hm, hval⟩ :=
      List.mem_filterMap.mp (List.mem_of_getLast?_eq_some hlast)
    rw [h img hm p v hval]

theorem merge_tiles_all_zero (imgs : List Image) (region : Pixel → Bool)
    (h : ∀ img ∈ imgs, ∀ p v, img p = some v → v = 0) :
    ∀ p, merge_tiles imgs region p = none := by
  intro p
  simp only [merge_tiles, updateMask, clipImage]
  rcases mosaic_all_zero imgs h p with h0 | h0 <;> rw [h0] <;> by_cases hr : region p
  · simp [hr, neqZero]
  · simp [hr, neqZero]
  · simp [hr, neqZero]
  · simp [hr, neqZero]

/-! ## C1: behaviour when every per-tile fetch fails -/

/-- C1 (amended): when every per-tile fetch of an Amazon month fails, the
month is still assembled without propagating the failure, but by the mosaic
branch, not the fallback branch: the result is the zero-masked mosaic of the
blank placeholder tiles, i.e. a fully-masked image, and the whole-region
fallback query is not used (the tile list built from the non-empty Amazon
grid is never empty). -/
theorem amazon_all_tiles_fail_masked_mosaic (stub : EEStub) (ms me : Date)
    (hfail : ∀ q, stub.tileImage q = none) :
    ((amazonNDVI_assemble stub ms me).2 = false ∧
      ∀ p, (amazonNDVI_assemble stub ms me).1 p = none) ∧
    ((amazonLST_assemble stub ms me).2 = false ∧
      ∀ p, (amazonLST_assemble stub ms me).1 p = none) := by
  have hblank : ∀ (t : Tile) (p : Pixel) (v : ℚ),
      clipImage (constantImage 0) (tileRegion t) p = some v → v = 0 := by
    intro t p v hv
    simp only [clipImage, constantImage] at hv
    by_cases hr : tileRegion t p
    · rw [if_pos hr] at hv; exact (Option.some.inj hv).symm
    · rw [if_neg hr] at hv; exact absurd hv (by simp)
  have hmap : ∀ img ∈ amazonGrid.map
      (fun t => clipImage (constantImage 0) (tileRegion t)),
      ∀ p v, img p = some v → v = 0 := by
    intro img hm p v
    obtain ⟨t, _, rfl⟩ := List.mem_map.mp hm
    exact hblank t p v
  have hne : (amazonGrid.map
      (fun t => clipImage (constantImage 0) (tileRegion t))).isEmpty = false := by
    cases hg : amazonGrid with
    | nil => exact absurd hg amazonGrid_ne_nil
    | cons a l => simp [hg]
  have hcond : ¬((amazonGrid.map
      (fun t => clipImage (constantImage 0) (tileRegion t))).isEmpty = true) := by
    rw [hne]; simp
  constructor
  · simp only [amazonNDVI_assemble, hfail]
    rw [if_neg hcond]
    exact ⟨rfl, merge_tiles_all_zero _ _ hmap⟩
  · simp only [amazonLST_assemble, hfail]
    rw [if_neg hcond]
    exact ⟨rfl, merge_tiles_all_zero _ _ hmap⟩

/-- A stub on which every tile fetch fails (and every other call is inert). -/
def failStub : EEStub :=
  { tileImage := fun _ => none
    wholeImage := fun _ => constantImage 0
    mapTileUrl := fun _ => ""
    collectionSize := fun _ => 0
    reduceStats := fun _ => ⟨none, none, none⟩
    samplePoint := fun _ => none
    regionRows := fun _ => [] }

/-- C1 counterexample: with every per-tile fetch failing, neither Amazon
`process_month` takes the whole-region fallback branch — the flag recording
"fallback used" is `false` for both endpoints, because the failed fetches
contributed blank placeholder tiles and the tile list is non-empty. -/
theorem amazon_all_tiles_fail_no_fallback_cex :
    (amazonNDVI_assemble failStub ⟨2024, 1, 1⟩ ⟨2024, 2, 1⟩).2 = false ∧
    (amazonLST_assemble failStub ⟨2024, 1, 1⟩ ⟨2024, 2, 1⟩).2 = false := by
  have hfail : ∀ q, failStub.tileImage q = none := fun _ => rfl
  have hne : (amazonGrid.map
      (fun t => clipImage (constantImage 0) (tileRegion t))).isEmpty = false := by
    cases hg : amazonGrid with
    | nil => exact absurd hg amazonGrid_ne_nil
    | cons a l => simp [hg]
  have hcond : ¬((amazonGrid.map
      (fun t => clipImage (constantImage 0) (tileRegion t))).isEmpty = true) := by
    rw [hne]; simp
  constructor
  · simp only [amazonNDVI_assemble, hfail]
    rw [if_neg hcond]
  · simp only [amazonLST_assemble, hfail]
    rw [if_neg hcond]

/-- Witness for C1 (amended) on the failing stub at a concrete pixel. -/
theorem amazon_all_tiles_fail_masked_mosaic_witness :
    (amazonNDVI_assemble failStub ⟨2024, 1, 1⟩ ⟨2024, 2, 1⟩).1 (-50, 0) = none ∧
    (amazonLST_assemble failStub ⟨2024, 1, 1⟩ ⟨2024, 2, 1⟩).1 (-50, 0) = none :=
  ⟨(amazon_all_tiles_fail_masked_mosaic failStub ⟨2024, 1, 1⟩ ⟨2024, 2, 1⟩
      (fun _ => rfl)).1.2 (-50, 0),
   (amazon_all_tiles_fail_masked_mosaic failStub ⟨2024, 1, 1⟩ ⟨2024, 2, 1⟩
      (fun _ => rfl)).2.2 (-50, 0)⟩

/-! ## C6: fan-out executor -/

/-- C6: every fan-out uses the fixed worker caps 3 (Amazon endpoints) and 4
(custom endpoints); collected results appear in task order — the result of
month `i` is at position `i` — on both the pool path (any completion
schedule covering the task) and the sequential fallback path; and when the
pool fails outright the executor degrades to the strictly sequential
ascending computation `(List.range 12).map process`. -/
theorem fan_out_order_and_fallback :
    (amazonNDVI_max_workers = 3 ∧ amazonLST_max_workers = 3 ∧
      customNDVI_max_workers = 4 ∧ customLST_max_workers = 4) ∧
    (∀ (w : ℕ) (f : ℕ → JVal) (sched : List ℕ) (ok : Bool) (d : JVal) (i : ℕ),
      i < 12 → i ∈ sched → (runFanOut w f 12 sched ok d)[i]? = some (f i)) ∧
    (∀ (w : ℕ) (f : ℕ → JVal) (sched : List ℕ) (d : JVal),
      runFanOut w f 12 sched false d = (List.range 12).map f) := by
  refine ⟨⟨rfl, rfl, rfl, rfl⟩, ?_, fun w f sched d => rfl⟩
  intro w f sched ok d i hi hmem
  cases ok
  · simp [runFanOut, List.getElem?_map, List.getElem?_range, hi]
  · simp only [runFanOut, if_true, List.getElem?_map, List.getElem?_range, hi,
      Option.map_some', lookup_map_pair f sched i hmem, Option.getD_some]

/-- Witness for C6 on a concrete process function and schedule. -/
theorem fan_out_order_and_fallback_witness :
    (runFanOut 3 (fun i => JVal.num (i : ℚ)) 12 ((List.range 12).reverse) true
      JVal.null)[7]? = some (JVal.num 7) :=
  fan_out_order_and_fallback.2.1 3 (fun i => JVal.num (i : ℚ))
    ((List.range 12).reverse) true JVal.null 7 (by decide) (by decide)

/-! ## C7: determinism of ordering and response shape -/

/-- C7: with the same request, anchor time and deterministic service stub,
two invocations of an endpoint — whatever completion order the pool produced
and even if one of them fell back to sequential processing — return exactly
the same response, hence the same ordering of monthly entries and the same
JSON shape. -/
theorem response_schedule_independent (stub stubC : EEStub) (now : Date)
    (req : CustomRequest) (sched1 sched2 : List ℕ) (ok1 ok2 : Bool)
    (h1 : ∀ i, i < 12 → i ∈ sched1) (h2 : ∀ i, i < 12 → i ∈ sched2) :
    amazonNDVI_get stub now sched1 ok1 = amazonNDVI_get stub now sched2 ok2 ∧
    customNDVI_post stubC req now sched1 ok1 =
      customNDVI_post stubC req now sched2 ok2 := by
  constructor
  · simp only [amazonNDVI_get]
    rw [runFanOut_eq_map _ _ _ _ _ _ h1, runFanOut_eq_map _ _ _ _ _ _ h2]
  · simp only [customNDVI_post]
    cases hv : customValidate req with
    | inl resp => rfl
    | inr pr =>
      simp only
      rw [runFanOut_eq_map _ _ _ _ _ _ h1, runFanOut_eq_map _ _ _ _ _ _ h2]

/-- Witness for C7 on concrete schedules (one reversed, one sequential with a
failed pool). -/
theorem response_schedule_independent_witness :
    amazonNDVI_get failStub ⟨2025, 3, 10⟩ (List.range 12) true =
      amazonNDVI_get failStub ⟨2025, 3, 10⟩ ((List.range 12).reverse) false ∧
    customNDVI_post failStub ⟨.null⟩ ⟨2025, 3, 10⟩ (List.range 12) true =
      customNDVI_post failStub ⟨.null⟩ ⟨2025, 3, 10⟩ ((List.range 12).reverse) false :=
  response_schedule_independent failStub failStub ⟨2025, 3, 10⟩ ⟨.null⟩
    (List.range 12) ((List.range 12).reverse) true false
    (by decide) (by decide)

/-! ## C9: fixed constants of the endpoints -/

/-- C9 counterexample: the LST pipelines apply no cloud-cover filter at all,
so the claim that "the Amazon endpoints filter imagery with cloud-cover
threshold 30%" and "the custom-AOI endpoints use threshold 100%" fails on
`AmazonLSTAPI` and `CustomLSTAPI`: their queries carry no
`CLOUDY_PIXEL_PERCENTAGE` filter. -/
theorem amazonLST_no_cloud_filter_cex :
    (amazonLST_tile_query ⟨-74, -18, 5, 5⟩ ⟨2024, 1, 1⟩ ⟨2024, 2, 1⟩).cloudFilterLt
      = none ∧
    (amazonLST_tile_query ⟨-74, -18, 5, 5⟩ ⟨2024, 1, 1⟩ ⟨2024, 2, 1⟩).cloudFilterLt
      ≠ some 30 ∧
    (customLST_query [] ⟨2024, 1, 1⟩ ⟨2024, 2, 1⟩).cloudFilterLt = none ∧
    (customLST_query [] ⟨2024, 1, 1⟩ ⟨2024, 2, 1⟩).cloudFilterLt ≠ some 100 := by
  refine ⟨rfl, ?_, rfl, ?_⟩ <;> simp [amazonLST_tile_query, customLST_query]

/-- C9 (amended): the constants the code actually fixes.  Worker pools: 3 for
both Amazon endpoints, 4 for both custom endpoints.  Cloud-cover thresholds
(Sentinel-2 `CLOUDY_PIXEL_PERCENTAGE` upper bounds): 30 for Amazon NDVI
(tile and whole-region queries), 50 for point-monthly NDVI, 100 for custom
NDVI; the three LST pipelines (MODIS) apply no cloud-cover filter. -/
theorem endpoint_constants :
    (∀ t ms me, (amazonNDVI_tile_query t ms me).cloudFilterLt = some 30) ∧
    (∀ ms me, (amazonNDVI_whole_query ms me).cloudFilterLt = some 30) ∧
    (∀ t ms me, (amazonLST_tile_query t ms me).cloudFilterLt = none) ∧
    (∀ ms me, (amazonLST_whole_query ms me).cloudFilterLt = none) ∧
    (∀ lon la ms me, (pointNDVI_query lon la ms me).cloudFilterLt = some 50) ∧
    (∀ lon la ms me, (pointLST_query lon la ms me).cloudFilterLt = none) ∧
    (∀ r ms me, (customNDVI_query r ms me).cloudFilterLt = some 100) ∧
    (∀ r ms me, (customLST_query r ms me).cloudFilterLt = none) ∧
    amazonNDVI_max_workers = 3 ∧ amazonLST_max_workers = 3 ∧
    customNDVI_max_workers = 4 ∧ customLST_max_workers = 4 :=
  ⟨fun _ _ _ => rfl, fun _ _ => rfl, fun _ _ _ => rfl, fun _ _ => rfl,
   fun _ _ _ _ => rfl, fun _ _ _ _ => rfl, fun _ _ _ => rfl, fun _ _ _ => rfl,
   rfl, rfl, rfl, rfl⟩

/-! ## C10: latitude/longitude fields take precedence over geometry -/

theorem pyFloat_some_isNull (v : JVal) (q : ℚ) (h : pyFloat v = some q) :
    v.isNull = false := by
  cases v <;> simp_all [pyFloat, JVal.isNull]

theorem resolve_of_latlon (req : PointRequest) (laq loq : ℚ)
    (h1 : pyFloat req.latitude = some laq) (h2 : pyFloat req.longitude = some loq) :
    resolvePointCoords req = .resolved (.num loq) (.num laq) := by
  have hA := pyFloat_some_isNull _ _ h1
  have hB := pyFloat_some_isNull _ _ h2
  simp [resolvePointCoords, hA, hB, h1, h2]

/-- C10: when a point-monthly request supplies a numeric latitude/longitude
pair, the handler resolves the point from those fields and never consults the
`geometry` object: substituting any other value for `geometry` leaves the
response unchanged, on both point endpoints. -/
theorem point_latlon_overrides_geometry (stub : EEStub) (la lo g1 g2 m : JVal)
    (laq loq : ℚ) (h1 : pyFloat la = some laq) (h2 : pyFloat lo = some loq) :
    pointNDVIMonthly_post stub ⟨la, lo, g1, m⟩ =
      pointNDVIMonthly_post stub ⟨la, lo, g2, m⟩ ∧
    pointLSTMonthly_post stub ⟨la, lo, g1, m⟩ =
      pointLSTMonthly_post stub ⟨la, lo, g2, m⟩ := by
  have r1 := resolve_of_latlon ⟨la, lo, g1, m⟩ laq loq h1 h2
  have r2 := resolve_of_latlon ⟨la, lo, g2, m⟩ laq loq h1 h2
  constructor
  · simp only [pointNDVIMonthly_post, r1, r2]
  · simp only [pointLSTMonthly_post, r1, r2]

/-- Witness for C10: a malformed `geometry` object next to numeric
latitude/longitude fields does not change the response. -/
theorem point_latlon_overrides_geometry_witness :
    pointNDVIMonthly_post failStub ⟨.num 3, .num (-60), .null, .str "2024-05"⟩ =
      pointNDVIMonthly_post failStub
        ⟨.num 3, .num (-60), .str "not-a-geometry", .str "2024-05"⟩ ∧
    pointLSTMonthly_post failStub ⟨.num 3, .num (-60), .null, .str "2024-05"⟩ =
      pointLSTMonthly_post failStub
        ⟨.num 3, .num (-60), .str "not-a-geometry", .str "2024-05"⟩ :=
  point_latlon_overrides_geometry failStub (.num 3) (.num (-60)) .null
    (.str "not-a-geometry") (.str "2024-05") 3 (-60) rfl rfl

/-! ## C4: malformed requests -/

/-- A malformed point request: an invalid month together with a geometry
object whose `coordinates` is a number.  Coordinate resolution runs before
the month check and `len(coords)` raises `TypeError` on a number, so the
outer `except` returns 500, not 400. -/
def badPointReq : PointRequest :=
  { latitude := .null
    longitude := .null
    geometry := .obj [("geometry",
      .obj [("type", .str "Point"), ("coordinates", .num 5)])]
    month := .str "not-a-month" }

/-- C4 counterexample: `badPointReq` is malformed in the claim's sense (its
month is not `YYYY-MM`), yet `PointNDVIMonthlyAPI.post` answers 500, not 400
(it does perform no remote query). -/
theorem point_invalid_month_server_error_cex :
    parseMonthJ badPointReq.month = none ∧
    (pointNDVIMonthly_post failStub badPointReq).status = 500 ∧
    (pointNDVIMonthly_post failStub badPointReq).status ≠ 400 ∧
    getField (pointNDVIMonthly_post failStub badPointReq).body "success" =
      some (.bool false) ∧
    (pointNDVIMonthly_post failStub badPointReq).remoteCalls = 0 := by
  refine ⟨rfl, rfl, by decide, rfl, rfl⟩

/-- C4 (amended): the canonical malformed inputs are rejected with a 400
`success=false` response and zero remote calls: a missing (`None`) geometry
on the custom endpoints; non-`float()`-convertible latitude/longitude fields
on the point endpoints; and an invalid month on the point endpoints when the
point is supplied through the numeric latitude/longitude fields.  (When the
invalid month is accompanied by a geometry object with a non-list
`coordinates`, the handler instead crashes to a 500 — see the
counterexample — still without a remote query.) -/
theorem malformed_request_client_error (stub : EEStub) (now : Date)
    (sched : List ℕ) (ok : Bool) :
    (∀ msg, (err400 msg).status = 400 ∧
      getField (err400 msg).body "success" = some (.bool false) ∧
      (err400 msg).remoteCalls = 0) ∧
    (∀ req : CustomRequest, req.geometry = .null →
      customNDVI_post stub req now sched ok = err400 "Missing geometry parameter" ∧
      customLST_post stub req now sched ok = err400 "Missing geometry parameter") ∧
    (∀ req : PointRequest,
      req.latitude.isNull = false → req.longitude.isNull = false →
      (pyFloat req.latitude = none ∨ pyFloat req.longitude = none) →
      pointNDVIMonthly_post stub req =
        err400 "Invalid latitude or longitude format" ∧
      pointLSTMonthly_post stub req =
        err400 "Invalid latitude or longitude format") ∧
    (∀ (req : PointRequest) (laq loq : ℚ),
      pyFloat req.latitude = some laq → pyFloat req.longitude = some loq →
      truthy req.month = true → parseMonthJ req.month = none →
      pointNDVIMonthly_post stub req =
        err400 "Invalid month format (use YYYY-MM)" ∧
      pointLSTMonthly_post stub req =
        err400 "Invalid month format (use YYYY-MM)") := by
  refine ⟨fun msg => ⟨rfl, rfl, rfl⟩, ?_, ?_, ?_⟩
  · intro req h
    constructor
    · simp [customNDVI_post, customValidate, h, truthy]
    · simp [customLST_post, customValidate, h, truthy]
  · intro req hA hB h3
    have hres : resolvePointCoords req =
        .clientErr "Invalid latitude or longitude format" := by
      rcases h3 with h | h
      · cases hq : pyFloat req.longitude <;>
          simp [resolvePointCoords, hA, hB, h, hq]
      · cases hp : pyFloat req.latitude <;>
          simp [resolvePointCoords, hA, hB, h, hp]
    exact ⟨by simp [pointNDVIMonthly_post, hres],
      by simp [pointLSTMonthly_post, hres]⟩
  · intro req laq loq h1 h2 hm hp
    have hres := resolve_of_latlon req laq loq h1 h2
    exact ⟨by simp [pointNDVIMonthly_post, hres, hm, hp],
      by simp [pointLSTMonthly_post, hres, hm, hp]⟩

/-- Witness for C4 (amended) on three concrete malformed requests. -/
theorem malformed_request_client_error_witness :
    customNDVI_post failStub ⟨.null⟩ ⟨2025, 1, 1⟩ [] true =
      err400 "Missing geometry parameter" ∧
    pointNDVIMonthly_post failStub ⟨.str "abc", .num 1, .null, .null⟩ =
      err400 "Invalid latitude or longitude format" ∧
    pointLSTMonthly_post failStub ⟨.num 1, .num 2, .null, .str "2024-13"⟩ =
      err400 "Invalid month format (use YYYY-MM)" :=
  ⟨((malformed_request_client_error failStub ⟨2025, 1, 1⟩ [] true).2.1
      ⟨.null⟩ rfl).1,
   ((malformed_request_client_error failStub ⟨2025, 1, 1⟩ [] true).2.2.1
      ⟨.str "abc", .num 1, .null, .null⟩ rfl rfl (Or.inl rfl)).1,
   ((malformed_request_client_error failStub ⟨2025, 1, 1⟩ [] true).2.2.2
      ⟨.num 1, .num 2, .null, .str "2024-13"⟩ 1 2 rfl rfl rfl rfl).2⟩

/-! ## C5: no data is encoded as null, never zero -/

/-- C5: when the external service reports no observation for a month — the
reduced statistics are all `null`, or the point sample is empty — every
numeric-statistics endpoint encodes the value as an explicit JSON `null`
together with `data_available = false`; and `null` is a different JSON value
from the number `0`, so "no data" is never conflated with an observed zero. -/
theorem no_data_encoded_as_null (stub : EEStub) :
    (∀ (rings : List (List (ℚ × ℚ))) (start : Date) (i : ℕ),
      stub.reduceStats (customNDVI_query rings (addMonths start (i : ℤ))
        (addMonths (addMonths start (i : ℤ)) 1)) = ⟨none, none, none⟩ →
      getField (customNDVI_process_month stub rings start i).1 "statistics" =
        some (.obj [("mean", .null), ("min", .null), ("max", .null)]) ∧
      getField (customNDVI_process_month stub rings start i).1 "data_available" =
        some (.bool false)) ∧
    (∀ (rings : List (List (ℚ × ℚ))) (start : Date) (i : ℕ),
      stub.reduceStats (customLST_query rings (addMonths start (i : ℤ))
        (addMonths (addMonths start (i : ℤ)) 1)) = ⟨none, none, none⟩ →
      getField (customLST_process_month stub rings start i).1 "statistics" =
        some (.obj [("mean", .null), ("min", .null), ("max", .null)]) ∧
      getField (customLST_process_month stub rings start i).1 "data_available" =
        some (.bool false)) ∧
    (∀ (req : PointRequest) (laq loq : ℚ) (md : Date),
      pyFloat req.latitude = some laq → pyFloat req.longitude = some loq →
      truthy req.month = true → parseMonthJ req.month = some md →
      stub.samplePoint (pointNDVI_query loq laq md (addMonths md 1)) = none →
      getField (pointNDVIMonthly_post stub req).body "median_ndvi" = some .null ∧
      getField (pointNDVIMonthly_post stub req).body "data_available" =
        some (.bool false)) ∧
    (∀ (req : PointRequest) (laq loq : ℚ) (md : Date),
      pyFloat req.latitude = some laq → pyFloat req.longitude = some loq →
      truthy req.month = true → parseMonthJ req.month = some md →
      stub.samplePoint (pointLST_query loq laq md (addMonths md 1)) = none →
      getField (pointLSTMonthly_post stub req).body "median_lst" = some .null ∧
      getField (pointLSTMonthly_post stub req).body "data_available" =
        some (.bool false)) ∧
    JVal.null ≠ JVal.num 0 := by
  refine ⟨?_, ?_, ?_, ?_, by simp⟩
  · intro rings start i h
    simp only [customNDVI_process_month, h]
    exact ⟨rfl, rfl⟩
  · intro rings start i h
    simp only [customLST_process_month, h]
    exact ⟨rfl, rfl⟩
  · intro req laq loq md h1 h2 hm hp hsample
    have hres := resolve_of_latlon req laq loq h1 h2
    constructor <;>
      simp [pointNDVIMonthly_post, hres, hm, hp, hsample, getField, lookupField,
        optNum]
  · intro req laq loq md h1 h2 hm hp hsample
    have hres := resolve_of_latlon req laq loq h1 h2
    constructor <;>
      simp [pointLSTMonthly_post, hres, hm, hp, hsample, getField, lookupField,
        optNum]

/-- Witness for C5 on the inert stub and a concrete request. -/
theorem no_data_encoded_as_null_witness :
    getField (customNDVI_process_month failStub [] ⟨2024, 1, 1⟩ 0).1
      "data_available" = some (.bool false) ∧
    getField (pointNDVIMonthly_post failStub
      ⟨.num 1, .num 2, .null, .str "2024-05"⟩).body "median_ndvi" = some .null :=
  ⟨((no_data_encoded_as_null failStub).1 [] ⟨2024, 1, 1⟩ 0 rfl).2,
   ((no_data_encoded_as_null failStub).2.2.1
      ⟨.num 1, .num 2, .null, .str "2024-05"⟩ 1 2 ⟨2024, 5, 1⟩
      rfl rfl rfl rfl rfl).1⟩
